import Mathlib

/-!
Verification of the token-escrow program
(src/programs/token-escrow/src/lib.rs, Anchor/Solana).

Shallow embedding. Public keys and account addresses are modelled as `Nat`;
token amounts (`u64`) as `Nat` (the program performs no arithmetic on them
beyond the SPL transfer, which is debit/credit of equal amounts). A Solana
transaction is atomic: any failure aborts with no state change, which the
embedding captures by returning `Except` and by `applyOp` keeping the old
state on error.

Framework semantics that the source relies on are embedded explicitly:
  * `#[account(init, seeds = [b"escrow", buyer, seller], bump)]` makes the
    record key a deterministic function of the (buyer, seller) pair and makes
    account initialization fail when a record already exists at that key
    (`AlreadyExists`).
  * the vault (`seeds = [b"vault", escrow]`) is the unique vault of its
    escrow, so it is stored inside the escrow's slot.
  * Anchor validates all account constraints (seeds, `token::mint`,
    `token::authority`) before the instruction body runs.
  * Anchor serializes the `Escrow` account back into its allocation of
    `Escrow::SPACE` bytes when the instruction ends; an `item_name` whose
    Borsh encoding does not fit makes the whole instruction fail
    (`AccountDidNotSerialize`).
  * `token::transfer` fails with `InsufficientFunds` when the source balance
    is below the requested amount; a transfer of 0 succeeds.
-/

namespace TokenEscrow

/-- Error outcomes of an instruction. `AlreadyCompleted` and
`UnauthorizedCancel` are the program's own `EscrowError` codes (lib.rs
225-231); the others are the framework/token-program failures the
instructions can surface. -/
inductive EscrowError where
  | AlreadyCompleted
  | UnauthorizedCancel
  | AlreadyExists
  | InsufficientFunds
  | AccountNotFound
  | ConstraintSeeds
  | ConstraintTokenMint
  | ConstraintTokenOwner
  | AccountDidNotSerialize
  deriving Repr, DecidableEq

/-- The persisted escrow record (lib.rs 211-219). -/
structure Escrow where
  buyer : Nat
  seller : Nat
  amount : Nat
  item_name : String
  is_completed : Bool
  bump : Nat
  deriving Repr, DecidableEq

/-- `Escrow::SPACE` (lib.rs 222): discriminator + buyer + seller + amount +
(4-byte length prefix + 50 bytes of `item_name` payload) + flag + bump. -/
def Escrow.SPACE : Nat := 8 + 32 + 32 + 8 + (4 + 50) + 1 + 1

/-- Size of the Anchor serialization of a record: the fixed fields plus the
length-prefixed UTF-8 bytes of `item_name`. -/
def serializedSize (e : Escrow) : Nat :=
  8 + 32 + 32 + 8 + (4 + e.item_name.utf8ByteSize) + 1 + 1

/-- An SPL token account: its mint, its authority and its balance. -/
structure TokenAcct where
  mint : Nat
  authority : Nat
  balance : Nat
  deriving Repr, DecidableEq

/-- One escrow together with its vault. The vault token account is derived
from the escrow's address (`seeds = [b"vault", escrow.key()]`), so it exists
one-to-one with the record and is kept in the same slot; its authority is the
escrow PDA itself (`token::authority = escrow`). -/
structure EscrowSlot where
  record : Escrow
  vaultMint : Nat
  vaultBalance : Nat
  deriving Repr, DecidableEq

/-- Ledger state: escrow records (with their vaults) keyed by the derived
escrow key, and the ordinary user token accounts keyed by address. -/
structure Chain where
  escrows : List ((Nat × Nat) × EscrowSlot)
  tokenAccts : List (Nat × TokenAcct)
  deriving Repr, DecidableEq

/-- Association-list lookup. -/
def alookup {α β : Type} [DecidableEq α] : List (α × β) → α → Option β
  | [], _ => none
  | (k, v) :: rest, k0 => if k = k0 then some v else alookup rest k0

/-- Association-list insert-or-overwrite. -/
def aset {α β : Type} [DecidableEq α] : List (α × β) → α → β → List (α × β)
  | [], k0, v0 => [(k0, v0)]
  | (k, v) :: rest, k0, v0 =>
      if k = k0 then (k0, v0) :: rest else (k, v) :: aset rest k0 v0

/-- Derived escrow record key: `seeds = [b"escrow", buyer.key(), seller.key()]`
(lib.rs 115). Deterministic in the (buyer, seller) pair by construction. -/
def escrowKey (buyer seller : Nat) : Nat × Nat := (buyer, seller)

/-- `create_escrow` (lib.rs 10-36 with the `CreateEscrow` accounts,
lib.rs 108-147). `buyer` is the transaction's signer; `seller` is an
unchecked account. `bump` is the canonical bump found by the runtime
(`ctx.bumps.escrow`). Checks, in Anchor's order: the `init` of the escrow
record fails if the key is taken; `buyer_token_account` must have
`token::mint = mint` and `token::authority = buyer`; the body then moves
`amount` from the buyer's token account into the fresh vault; finally the
record (buyer, seller, amount, item_name, is_completed = false, bump) must
fit its `Escrow::SPACE` allocation. No check on `amount` is performed. -/
def create_escrow (st : Chain) (buyer seller buyerTokenAcct mint bump amount : Nat)
    (item_name : String) : Except EscrowError Chain :=
  match alookup st.escrows (escrowKey buyer seller) with
  | some _ => .error .AlreadyExists
  | none =>
      match alookup st.tokenAccts buyerTokenAcct with
      | none => .error .AccountNotFound
      | some src =>
          if src.mint ≠ mint then .error .ConstraintTokenMint
          else if src.authority ≠ buyer then .error .ConstraintTokenOwner
          else if src.balance < amount then .error .InsufficientFunds
          else if Escrow.SPACE <
              serializedSize ⟨buyer, seller, amount, item_name, false, bump⟩ then
            .error .AccountDidNotSerialize
          else .ok
            { escrows := aset st.escrows (escrowKey buyer seller)
                ⟨⟨buyer, seller, amount, item_name, false, bump⟩, mint, amount⟩,
              tokenAccts := aset st.tokenAccts buyerTokenAcct
                { src with balance := src.balance - amount } }

/-- `complete_escrow` (lib.rs 38-69 with the `CompleteEscrow` accounts,
lib.rs 149-178). `sellerSigner` is the `seller: Signer` account — note the
program never compares it to `escrow.seller`; the only binding is
`token::authority = seller` on `seller_token_account`. Checks, in Anchor's
order: escrow seeds, vault mint, destination mint and authority; then the
body: `require!(!is_completed, AlreadyCompleted)`, the vault → destination
transfer of `escrow.amount`, and only then `is_completed = true`. -/
def complete_escrow (st : Chain) (key : Nat × Nat) (sellerSigner sellerTokenAcct mint : Nat) :
    Except EscrowError Chain :=
  match alookup st.escrows key with
  | none => .error .AccountNotFound
  | some slot =>
      if key ≠ escrowKey slot.record.buyer slot.record.seller then .error .ConstraintSeeds
      else if slot.vaultMint ≠ mint then .error .ConstraintTokenMint
      else
        match alookup st.tokenAccts sellerTokenAcct with
        | none => .error .AccountNotFound
        | some dest =>
            if dest.mint ≠ mint then .error .ConstraintTokenMint
            else if dest.authority ≠ sellerSigner then .error .ConstraintTokenOwner
            else if slot.record.is_completed then .error .AlreadyCompleted
            else if slot.vaultBalance < slot.record.amount then .error .InsufficientFunds
            else .ok
              { escrows := aset st.escrows key
                  { slot with
                      record := { slot.record with is_completed := true },
                      vaultBalance := slot.vaultBalance - slot.record.amount },
                tokenAccts := aset st.tokenAccts sellerTokenAcct
                  { dest with balance := dest.balance + slot.record.amount } }

/-- `cancel_escrow` (lib.rs 71-105 with the `CancelEscrow` accounts,
lib.rs 180-209). `buyerSigner` is the `buyer: Signer` account. Checks, in
order: escrow seeds, vault mint, destination mint and authority; then the
body: `require!(!is_completed, AlreadyCompleted)` first,
`require!(buyer.key() == escrow.buyer, UnauthorizedCancel)` second, then the
vault → buyer transfer of `escrow.amount`, then `is_completed = true`. -/
def cancel_escrow (st : Chain) (key : Nat × Nat) (buyerSigner buyerTokenAcct mint : Nat) :
    Except EscrowError Chain :=
  match alookup st.escrows key with
  | none => .error .AccountNotFound
  | some slot =>
      if key ≠ escrowKey slot.record.buyer slot.record.seller then .error .ConstraintSeeds
      else if slot.vaultMint ≠ mint then .error .ConstraintTokenMint
      else
        match alookup st.tokenAccts buyerTokenAcct with
        | none => .error .AccountNotFound
        | some dest =>
            if dest.mint ≠ mint then .error .ConstraintTokenMint
            else if dest.authority ≠ buyerSigner then .error .ConstraintTokenOwner
            else if slot.record.is_completed then .error .AlreadyCompleted
            else if buyerSigner ≠ slot.record.buyer then .error .UnauthorizedCancel
            else if slot.vaultBalance < slot.record.amount then .error .InsufficientFunds
            else .ok
              { escrows := aset st.escrows key
                  { slot with
                      record := { slot.record with is_completed := true },
                      vaultBalance := slot.vaultBalance - slot.record.amount },
                tokenAccts := aset st.tokenAccts buyerTokenAcct
                  { dest with balance := dest.balance + slot.record.amount } }

/-- A transaction against the program: one of the three instructions with
its arguments and accounts. -/
inductive Op where
  | create (buyer seller buyerTokenAcct mint bump amount : Nat) (item_name : String)
  | complete (key : Nat × Nat) (sellerSigner sellerTokenAcct mint : Nat)
  | cancel (key : Nat × Nat) (buyerSigner buyerTokenAcct mint : Nat)
  deriving Repr, DecidableEq

/-- Transaction semantics: a failing instruction leaves the ledger unchanged
(Solana transaction atomicity). -/
def applyOp (st : Chain) : Op → Chain
  | .create b s acct m bp amt n =>
      match create_escrow st b s acct m bp amt n with
      | .ok st1 => st1
      | .error _ => st
  | .complete k sg acct m =>
      match complete_escrow st k sg acct m with
      | .ok st1 => st1
      | .error _ => st
  | .cancel k sg acct m =>
      match cancel_escrow st k sg acct m with
      | .ok st1 => st1
      | .error _ => st

/-- A sequence of transactions, applied in order. -/
def applyOps (st : Chain) (ops : List Op) : Chain := ops.foldl applyOp st

/-- The record at key `k` exists and its `is_completed` flag is `true`. -/
def completedAt (st : Chain) (k : Nat × Nat) : Prop :=
  (alookup st.escrows k).map (fun sl => sl.record.is_completed) = some true

/-- The fields of a record that `create_escrow` writes once and no
instruction may change afterwards. -/
def frozenFields (e : Escrow) : Nat × Nat × Nat × String :=
  (e.buyer, e.seller, e.amount, e.item_name)

/-- A genesis ledger for concrete runs: no escrows; token accounts 10, 20
and 77 of mint 5, owned by parties 1 (the buyer, funded with 100), 2 (the
seller) and 3 (an unrelated party). -/
def genesis : Chain :=
  { escrows := [],
    tokenAccts := [(10, ⟨5, 1, 100⟩), (20, ⟨5, 2, 0⟩), (77, ⟨5, 3, 0⟩)] }

/-- The ledger after party 1 escrows 100 tokens for party 2. -/
def demoCreated : Chain := applyOp genesis (Op.create 1 2 10 5 255 100 "Widget")

/-- The ledger after the escrow of `demoCreated` is completed by the seller. -/
def settledChain : Chain := applyOp demoCreated (Op.complete (1, 2) 2 20 5)

/-- The ledger after the escrow of `demoCreated` is cancelled by the buyer. -/
def cancelledChain : Chain := applyOp demoCreated (Op.cancel (1, 2) 1 10 5)

/-- The ledger after party 3 — who is not the seller named in the record —
calls `complete_escrow` on the escrow of `demoCreated` with their own token
account 77 as destination. -/
def interloperChain : Chain := applyOp demoCreated (Op.complete (1, 2) 3 77 5)

/-- A 51-character (51-byte) item label, one byte over the bound. -/
def longName : String := "aaaaaaaaaaaaaaaaaaaaaaaaaaaaaaaaaaaaaaaaaaaaaaaaaaa"

/-- The outcome of `create_escrow genesis 1 2 10 5 255 0 "Widget"`: the
program accepts a zero-amount escrow. -/
def zeroAmountChain : Chain := applyOp genesis (Op.create 1 2 10 5 255 0 "Widget")

/-- A ledger whose open escrow's vault holds fewer tokens (40) than the
record's `amount` (100), to exercise a failing custody transfer. -/
def lowVaultChain : Chain :=
  { escrows := [((1, 2), ⟨⟨1, 2, 100, "Widget", false, 255⟩, 5, 40⟩)],
    tokenAccts := [(10, ⟨5, 1, 0⟩), (20, ⟨5, 2, 0⟩)] }

/- ## Association-list lemmas -/

theorem alookup_aset_self {α β : Type} [DecidableEq α] (l : List (α × β)) (k : α) (v : β) :
    alookup (aset l k v) k = some v := by
  induction l with
  | nil => simp [aset, alookup]
  | cons hd tl ih =>
      obtain ⟨k1, v1⟩ := hd
      by_cases h : k1 = k
      · simp [aset, h, alookup]
      · simp [aset, h, alookup, ih]

theorem alookup_aset_ne {α β : Type} [DecidableEq α] (l : List (α × β)) (k k1 : α) (v : β)
    (h : k ≠ k1) : alookup (aset l k v) k1 = alookup l k1 := by
  induction l with
  | nil => simp [aset, alookup, h]
  | cons hd tl ih =>
      obtain ⟨k2, v2⟩ := hd
      by_cases h2 : k2 = k
      · subst h2
        simp [aset, alookup, h]
      · simp [aset, h2, alookup, ih]

/- ## Inversion of successful instructions -/

theorem create_escrow_ok_inv {st : Chain} {b s acct m bp amt : Nat} {n : String} {st1 : Chain}
    (h : create_escrow st b s acct m bp amt n = .ok st1) :
    ∃ src,
      alookup st.escrows (escrowKey b s) = none ∧
      alookup st.tokenAccts acct = some src ∧
      src.mint = m ∧
      src.authority = b ∧
      amt ≤ src.balance ∧
      serializedSize ⟨b, s, amt, n, false, bp⟩ ≤ Escrow.SPACE ∧
      st1 = { escrows := aset st.escrows (escrowKey b s) ⟨⟨b, s, amt, n, false, bp⟩, m, amt⟩,
              tokenAccts := aset st.tokenAccts acct
                { src with balance := src.balance - amt } } := by
  unfold create_escrow at h
  split at h
  · exact absurd h (by simp)
  next hrec =>
    split at h
    · exact absurd h (by simp)
    next src hsrc =>
      split at h
      · exact absurd h (by simp)
      next hm =>
        split at h
        · exact absurd h (by simp)
        next ha =>
          split at h
          · exact absurd h (by simp)
          next hb =>
            split at h
            · exact absurd h (by simp)
            next hs =>
              simp only [Except.ok.injEq] at h
              exact ⟨src, hrec, hsrc, not_ne_iff.mp hm, not_ne_iff.mp ha,
                Nat.not_lt.mp hb, Nat.not_lt.mp hs, h.symm⟩

theorem complete_escrow_ok_inv {st : Chain} {key : Nat × Nat} {sg acct m : Nat} {st1 : Chain}
    (h : complete_escrow st key sg acct m = .ok st1) :
    ∃ slot dest,
      alookup st.escrows key = some slot ∧
      key = escrowKey slot.record.buyer slot.record.seller ∧
      slot.vaultMint = m ∧
      alookup st.tokenAccts acct = some dest ∧
      dest.mint = m ∧
      dest.authority = sg ∧
      slot.record.is_completed = false ∧
      slot.record.amount ≤ slot.vaultBalance ∧
      st1 = { escrows := aset st.escrows key
                { slot with
                    record := { slot.record with is_completed := true },
                    vaultBalance := slot.vaultBalance - slot.record.amount },
              tokenAccts := aset st.tokenAccts acct
                { dest with balance := dest.balance + slot.record.amount } } := by
  unfold complete_escrow at h
  split at h
  · exact absurd h (by simp)
  next slot hrec =>
    split at h
    · exact absurd h (by simp)
    next hkey =>
      split at h
      · exact absurd h (by simp)
      next hvm =>
        split at h
        · exact absurd h (by simp)
        next dest hdest =>
          split at h
          · exact absurd h (by simp)
          next hdm =>
            split at h
            · exact absurd h (by simp)
            next hda =>
              split at h
              · exact absurd h (by simp)
              next hdone =>
                split at h
                · exact absurd h (by simp)
                next hbal =>
                  simp only [Except.ok.injEq] at h
                  exact ⟨slot, dest, hrec, not_ne_iff.mp hkey, not_ne_iff.mp hvm, hdest,
                    not_ne_iff.mp hdm, not_ne_iff.mp hda, by simpa using hdone,
                    Nat.not_lt.mp hbal, h.symm⟩

theorem cancel_escrow_ok_inv {st : Chain} {key : Nat × Nat} {sg acct m : Nat} {st1 : Chain}
    (h : cancel_escrow st key sg acct m = .ok st1) :
    ∃ slot dest,
      alookup st.escrows key = some slot ∧
      key = escrowKey slot.record.buyer slot.record.seller ∧
      slot.vaultMint = m ∧
      alookup st.tokenAccts acct = some dest ∧
      dest.mint = m ∧
      dest.authority = sg ∧
      slot.record.is_completed = false ∧
      sg = slot.record.buyer ∧
      slot.record.amount ≤ slot.vaultBalance ∧
      st1 = { escrows := aset st.escrows key
                { slot with
                    record := { slot.record with is_completed := true },
                    vaultBalance := slot.vaultBalance - slot.record.amount },
              tokenAccts := aset st.tokenAccts acct
                { dest with balance := dest.balance + slot.record.amount } } := by
  unfold cancel_escrow at h
  split at h
  · exact absurd h (by simp)
  next slot hrec =>
    split at h
    · exact absurd h (by simp)
    next hkey =>
      split at h
      · exact absurd h (by simp)
      next hvm =>
        split at h
        · exact absurd h (by simp)
        next dest hdest =>
          split at h
          · exact absurd h (by simp)
          next hdm =>
            split at h
            · exact absurd h (by simp)
            next hda =>
              split at h
              · exact absurd h (by simp)
              next hdone =>
                split at h
                · exact absurd h (by simp)
                next hauth =>
                  split at h
                  · exact absurd h (by simp)
                  next hbal =>
                    simp only [Except.ok.injEq] at h
                    exact ⟨slot, dest, hrec, not_ne_iff.mp hkey, not_ne_iff.mp hvm, hdest,
                      not_ne_iff.mp hdm, not_ne_iff.mp hda, by simpa using hdone,
                      not_ne_iff.mp hauth, Nat.not_lt.mp hbal, h.symm⟩

/- ## Failing instructions leave the ledger unchanged -/

theorem applyOp_create_error {st : Chain} {b s acct m bp amt : Nat} {n : String}
    {e : EscrowError} (h : create_escrow st b s acct m bp amt n = .error e) :
    applyOp st (Op.create b s acct m bp amt n) = st := by
  simp [applyOp, h]

theorem applyOp_complete_error {st : Chain} {key : Nat × Nat} {sg acct m : Nat}
    {e : EscrowError} (h : complete_escrow st key sg acct m = .error e) :
    applyOp st (Op.complete key sg acct m) = st := by
  simp [applyOp, h]

theorem applyOp_cancel_error {st : Chain} {key : Nat × Nat} {sg acct m : Nat}
    {e : EscrowError} (h : cancel_escrow st key sg acct m = .error e) :
    applyOp st (Op.cancel key sg acct m) = st := by
  simp [applyOp, h]

/- ## Direct computation of the error paths -/

theorem create_escrow_exists {st : Chain} {b s acct m bp amt : Nat} {n : String}
    {slot : EscrowSlot} (hrec : alookup st.escrows (escrowKey b s) = some slot) :
    create_escrow st b s acct m bp amt n = .error .AlreadyExists := by
  simp [create_escrow, hrec]

theorem complete_escrow_already {st : Chain} {sg acct m : Nat}
    {slot : EscrowSlot} {dest : TokenAcct}
    (hrec : alookup st.escrows (escrowKey slot.record.buyer slot.record.seller) = some slot)
    (hvm : slot.vaultMint = m)
    (hdest : alookup st.tokenAccts acct = some dest)
    (hdm : dest.mint = m)
    (hda : dest.authority = sg)
    (hdone : slot.record.is_completed = true) :
    complete_escrow st (escrowKey slot.record.buyer slot.record.seller) sg acct m
      = .error .AlreadyCompleted := by
  simp [complete_escrow, hrec, hvm, hdest, hdm, hda, hdone]

theorem cancel_escrow_already {st : Chain} {sg acct m : Nat}
    {slot : EscrowSlot} {dest : TokenAcct}
    (hrec : alookup st.escrows (escrowKey slot.record.buyer slot.record.seller) = some slot)
    (hvm : slot.vaultMint = m)
    (hdest : alookup st.tokenAccts acct = some dest)
    (hdm : dest.mint = m)
    (hda : dest.authority = sg)
    (hdone : slot.record.is_completed = true) :
    cancel_escrow st (escrowKey slot.record.buyer slot.record.seller) sg acct m
      = .error .AlreadyCompleted := by
  simp [cancel_escrow, hrec, hvm, hdest, hdm, hda, hdone]

theorem cancel_escrow_unauthorized {st : Chain} {sg acct m : Nat}
    {slot : EscrowSlot} {dest : TokenAcct}
    (hrec : alookup st.escrows (escrowKey slot.record.buyer slot.record.seller) = some slot)
    (hvm : slot.vaultMint = m)
    (hdest : alookup st.tokenAccts acct = some dest)
    (hdm : dest.mint = m)
    (hda : dest.authority = sg)
    (hopen : slot.record.is_completed = false)
    (hne : sg ≠ slot.record.buyer) :
    cancel_escrow st (escrowKey slot.record.buyer slot.record.seller) sg acct m
      = .error .UnauthorizedCancel := by
  simp [cancel_escrow, hrec, hvm, hdest, hdm, hda, hopen, hne]

theorem complete_escrow_insufficient {st : Chain} {sg acct m : Nat}
    {slot : EscrowSlot} {dest : TokenAcct}
    (hrec : alookup st.escrows (escrowKey slot.record.buyer slot.record.seller) = some slot)
    (hvm : slot.vaultMint = m)
    (hdest : alookup st.tokenAccts acct = some dest)
    (hdm : dest.mint = m)
    (hda : dest.authority = sg)
    (hopen : slot.record.is_completed = false)
    (hlow : slot.vaultBalance < slot.record.amount) :
    complete_escrow st (escrowKey slot.record.buyer slot.record.seller) sg acct m
      = .error .InsufficientFunds := by
  simp [complete_escrow, hrec, hvm, hdest, hdm, hda, hopen, hlow]

theorem cancel_escrow_insufficient {st : Chain} {acct m : Nat}
    {slot : EscrowSlot} {dest : TokenAcct}
    (hrec : alookup st.escrows (escrowKey slot.record.buyer slot.record.seller) = some slot)
    (hvm : slot.vaultMint = m)
    (hdest : alookup st.tokenAccts acct = some dest)
    (hdm : dest.mint = m)
    (hda : dest.authority = slot.record.buyer)
    (hopen : slot.record.is_completed = false)
    (hlow : slot.vaultBalance < slot.record.amount) :
    cancel_escrow st (escrowKey slot.record.buyer slot.record.seller) slot.record.buyer acct m
      = .error .InsufficientFunds := by
  simp [cancel_escrow, hrec, hvm, hdest, hdm, hda, hopen, hlow]

theorem complete_escrow_runs {st : Chain} {sg acct m : Nat}
    {slot : EscrowSlot} {dest : TokenAcct}
    (hrec : alookup st.escrows (escrowKey slot.record.buyer slot.record.seller) = some slot)
    (hvm : slot.vaultMint = m)
    (hdest : alookup st.tokenAccts acct = some dest)
    (hdm : dest.mint = m)
    (hda : dest.authority = sg)
    (hopen : slot.record.is_completed = false)
    (hbal : slot.record.amount ≤ slot.vaultBalance) :
    complete_escrow st (escrowKey slot.record.buyer slot.record.seller) sg acct m
      = .ok { escrows := aset st.escrows (escrowKey slot.record.buyer slot.record.seller)
                { slot with
                    record := { slot.record with is_completed := true },
                    vaultBalance := slot.vaultBalance - slot.record.amount },
              tokenAccts := aset st.tokenAccts acct
                { dest with balance := dest.balance + slot.record.amount } } := by
  simp [complete_escrow, hrec, hvm, hdest, hdm, hda, hopen, Nat.not_lt.mpr hbal]

theorem cancel_escrow_runs {st : Chain} {acct m : Nat}
    {slot : EscrowSlot} {dest : TokenAcct}
    (hrec : alookup st.escrows (escrowKey slot.record.buyer slot.record.seller) = some slot)
    (hvm : slot.vaultMint = m)
    (hdest : alookup st.tokenAccts acct = some dest)
    (hdm : dest.mint = m)
    (hda : dest.authority = slot.record.buyer)
    (hopen : slot.record.is_completed = false)
    (hbal : slot.record.amount ≤ slot.vaultBalance) :
    cancel_escrow st (escrowKey slot.record.buyer slot.record.seller) slot.record.buyer acct m
      = .ok { escrows := aset st.escrows (escrowKey slot.record.buyer slot.record.seller)
                { slot with
                    record := { slot.record with is_completed := true },
                    vaultBalance := slot.vaultBalance - slot.record.amount },
              tokenAccts := aset st.tokenAccts acct
                { dest with balance := dest.balance + slot.record.amount } } := by
  simp [cancel_escrow, hrec, hvm, hdest, hdm, hda, hopen, Nat.not_lt.mpr hbal]

/- ## Monotonicity of the settled flag -/

theorem applyOp_completed_mono (st : Chain) (op : Op) (k : Nat × Nat)
    (h : completedAt st k) : completedAt (applyOp st op) k := by
  cases op with
  | create b s acct m bp amt n =>
      cases hc : create_escrow st b s acct m bp amt n with
      | error e => simpa [applyOp, hc] using h
      | ok st1 =>
          obtain ⟨src, hrec, -, -, -, -, -, hst1⟩ := create_escrow_ok_inv hc
          unfold completedAt at h ⊢
          have hne : escrowKey b s ≠ k := by
            intro he
            rw [he] at hrec
            rw [hrec] at h
            simp at h
          simp only [applyOp, hc, hst1]
          rw [alookup_aset_ne _ _ _ _ hne]
          exact h
  | complete key sg acct m =>
      cases hc : complete_escrow st key sg acct m with
      | error e => simpa [applyOp, hc] using h
      | ok st1 =>
          obtain ⟨slot, dest, hrec, -, -, -, -, -, -, -, hst1⟩ := complete_escrow_ok_inv hc
          unfold completedAt at h ⊢
          simp only [applyOp, hc, hst1]
          by_cases hk : key = k
          · subst hk
            rw [alookup_aset_self]
            simp
          · rw [alookup_aset_ne _ _ _ _ hk]
            exact h
  | cancel key sg acct m =>
      cases hc : cancel_escrow st key sg acct m with
      | error e => simpa [applyOp, hc] using h
      | ok st1 =>
          obtain ⟨slot, dest, hrec, -, -, -, -, -, -, -, -, hst1⟩ := cancel_escrow_ok_inv hc
          unfold completedAt at h ⊢
          simp only [applyOp, hc, hst1]
          by_cases hk : key = k
          · subst hk
            rw [alookup_aset_self]
            simp
          · rw [alookup_aset_ne _ _ _ _ hk]
            exact h

theorem applyOps_completed_mono (st : Chain) (ops : List Op) (k : Nat × Nat)
    (h : completedAt st k) : completedAt (applyOps st ops) k := by
  induction ops generalizing st with
  | nil => exact h
  | cons op rest ih => exact ih (applyOp st op) (applyOp_completed_mono st op k h)

/- ## Claims -/

/-- C1: for every escrow record with `is_completed = true`, any call to
`complete_escrow` or `cancel_escrow` (with accounts that pass the Anchor
constraint checks) fails with the `AlreadyCompleted` error, and the record
and vault balance are left unchanged. -/
theorem C1_settled_escrow_rejects_settlement
    (st : Chain) (sg acct m : Nat) (slot : EscrowSlot) (dest : TokenAcct)
    (hrec : alookup st.escrows (escrowKey slot.record.buyer slot.record.seller) = some slot)
    (hvm : slot.vaultMint = m)
    (hdest : alookup st.tokenAccts acct = some dest)
    (hdm : dest.mint = m)
    (hda : dest.authority = sg)
    (hdone : slot.record.is_completed = true) :
    complete_escrow st (escrowKey slot.record.buyer slot.record.seller) sg acct m
        = .error .AlreadyCompleted ∧
    cancel_escrow st (escrowKey slot.record.buyer slot.record.seller) sg acct m
        = .error .AlreadyCompleted ∧
    applyOp st (Op.complete (escrowKey slot.record.buyer slot.record.seller) sg acct m) = st ∧
    applyOp st (Op.cancel (escrowKey slot.record.buyer slot.record.seller) sg acct m) = st := by
  have hc := complete_escrow_already hrec hvm hdest hdm hda hdone
  have hx := cancel_escrow_already hrec hvm hdest hdm hda hdone
  exact ⟨hc, hx, applyOp_complete_error hc, applyOp_cancel_error hx⟩

/-- Witness for C1 on the settled ledger `settledChain`. -/
theorem C1_witness :
    complete_escrow settledChain (1, 2) 2 20 5 = .error .AlreadyCompleted ∧
    cancel_escrow settledChain (1, 2) 2 20 5 = .error .AlreadyCompleted ∧
    applyOp settledChain (Op.complete (1, 2) 2 20 5) = settledChain ∧
    applyOp settledChain (Op.cancel (1, 2) 2 20 5) = settledChain :=
  C1_settled_escrow_rejects_settlement settledChain 2 20 5
    ⟨⟨1, 2, 100, "Widget", true, 255⟩, 5, 0⟩ ⟨5, 2, 100⟩
    (by decide) rfl (by decide) rfl rfl rfl

/-- C2 counterexample: on `demoCreated` the stored record names party 2 as
the seller and the vault holds 100 tokens, yet party 3 — a signer different
from `record.seller`, owning token account 77 — successfully calls
`complete_escrow` and the 100 tokens leave the vault into account 77. -/
theorem C2_counterexample :
    ((alookup demoCreated.escrows (escrowKey 1 2)).map fun sl => sl.record.seller)
        = some 2 ∧
    ((alookup demoCreated.escrows (escrowKey 1 2)).map fun sl => sl.vaultBalance)
        = some 100 ∧
    (3 : Nat) ≠ 2 ∧
    (complete_escrow demoCreated (1, 2) 3 77 5).toOption = some interloperChain ∧
    ((alookup interloperChain.escrows (escrowKey 1 2)).map fun sl => sl.vaultBalance)
        = some 0 ∧
    alookup interloperChain.tokenAccts 77 = some ⟨5, 3, 100⟩ := by
  decide

/-- C2 (amended): `complete_escrow` never compares the signer with
`record.seller`. What it enforces is account-binding: a successful completion
moves exactly `record.amount` into the provided destination account, whose
authority must be the signer — whoever that signer is. Consequently any
signer owning a suitable token account can complete an open, funded escrow. -/
theorem C2_complete_binds_destination_not_seller :
    (∀ st key sg acct m st1, complete_escrow st key sg acct m = .ok st1 →
      ∃ slot dest, alookup st.escrows key = some slot ∧
        alookup st.tokenAccts acct = some dest ∧
        dest.authority = sg ∧
        alookup st1.tokenAccts acct
          = some { dest with balance := dest.balance + slot.record.amount }) ∧
    (∀ st sg acct m slot dest,
      alookup st.escrows (escrowKey slot.record.buyer slot.record.seller) = some slot →
      slot.vaultMint = m →
      alookup st.tokenAccts acct = some dest →
      dest.mint = m →
      dest.authority = sg →
      slot.record.is_completed = false →
      slot.record.amount ≤ slot.vaultBalance →
      ∃ st1, complete_escrow st (escrowKey slot.record.buyer slot.record.seller) sg acct m
          = .ok st1) := by
  constructor
  · intro st key sg acct m st1 h
    obtain ⟨slot, dest, hrec, -, -, hdest, -, hda, -, -, hst1⟩ := complete_escrow_ok_inv h
    subst hst1
    exact ⟨slot, dest, hrec, hdest, hda, alookup_aset_self _ _ _⟩
  · intro st sg acct m slot dest hrec hvm hdest hdm hda hopen hbal
    exact ⟨_, complete_escrow_runs hrec hvm hdest hdm hda hopen hbal⟩

/-- Witness for the amended C2, instantiated with signer 3, who is not the
record's seller (party 2). -/
theorem C2_witness :
    (∃ slot dest, alookup demoCreated.escrows (1, 2) = some slot ∧
        alookup demoCreated.tokenAccts 77 = some dest ∧
        dest.authority = 3 ∧
        alookup interloperChain.tokenAccts 77
          = some { dest with balance := dest.balance + slot.record.amount }) ∧
    (∃ st1, complete_escrow demoCreated (1, 2) 3 77 5 = .ok st1) :=
  ⟨C2_complete_binds_destination_not_seller.1 demoCreated (1, 2) 3 77 5 interloperChain rfl,
   C2_complete_binds_destination_not_seller.2 demoCreated 3 77 5
     ⟨⟨1, 2, 100, "Widget", false, 255⟩, 5, 100⟩ ⟨5, 3, 0⟩
     (by decide) rfl (by decide) rfl rfl rfl (by decide)⟩

/-- C3: on an open escrow (with accounts passing the Anchor constraints),
`cancel_escrow` fails with `UnauthorizedCancel` — moving no funds and
leaving the ledger unchanged — whenever the signer differs from
`record.buyer`; when the signer equals `record.buyer` the authorization
check passes (the call never fails with `UnauthorizedCancel`). -/
theorem C3_cancel_requires_buyer
    (st : Chain) (sg acct m : Nat) (slot : EscrowSlot) (dest : TokenAcct)
    (hrec : alookup st.escrows (escrowKey slot.record.buyer slot.record.seller) = some slot)
    (hvm : slot.vaultMint = m)
    (hdest : alookup st.tokenAccts acct = some dest)
    (hdm : dest.mint = m)
    (hda : dest.authority = sg)
    (hopen : slot.record.is_completed = false) :
    (sg ≠ slot.record.buyer →
      cancel_escrow st (escrowKey slot.record.buyer slot.record.seller) sg acct m
          = .error .UnauthorizedCancel ∧
      applyOp st (Op.cancel (escrowKey slot.record.buyer slot.record.seller) sg acct m) = st) ∧
    (sg = slot.record.buyer →
      cancel_escrow st (escrowKey slot.record.buyer slot.record.seller) sg acct m
          ≠ .error .UnauthorizedCancel) := by
  constructor
  · intro hne
    have hx := cancel_escrow_unauthorized hrec hvm hdest hdm hda hopen hne
    exact ⟨hx, applyOp_cancel_error hx⟩
  · intro heq
    subst heq
    by_cases hlow : slot.vaultBalance < slot.record.amount
    · rw [cancel_escrow_insufficient hrec hvm hdest hdm hda hopen hlow]
      simp
    · rw [cancel_escrow_runs hrec hvm hdest hdm hda hopen (Nat.not_lt.mp hlow)]
      simp

/-- Witness for C3 on the open ledger `demoCreated`: signer 2 (the seller,
not the buyer) is rejected with `UnauthorizedCancel`; signer 1 (the buyer)
passes the authorization check. -/
theorem C3_witness :
    (cancel_escrow demoCreated (1, 2) 2 20 5 = .error .UnauthorizedCancel ∧
     applyOp demoCreated (Op.cancel (1, 2) 2 20 5) = demoCreated) ∧
    cancel_escrow demoCreated (1, 2) 1 10 5 ≠ .error .UnauthorizedCancel :=
  ⟨(C3_cancel_requires_buyer demoCreated 2 20 5
      ⟨⟨1, 2, 100, "Widget", false, 255⟩, 5, 100⟩ ⟨5, 2, 0⟩
      (by decide) rfl (by decide) rfl rfl rfl).1 (by decide),
   (C3_cancel_requires_buyer demoCreated 1 10 5
      ⟨⟨1, 2, 100, "Widget", false, 255⟩, 5, 100⟩ ⟨5, 1, 0⟩
      (by decide) rfl (by decide) rfl rfl rfl).2 rfl⟩

/-- C4: if the custody transfer fails during `complete_escrow` or
`cancel_escrow` (vault balance below `record.amount`), the call returns
`InsufficientFunds` and the ledger — in particular the record's
`is_completed` flag and the vault balance — is unchanged: the transfer is
attempted strictly before the state flip is persisted. -/
theorem C4_failed_transfer_preserves_state
    (st : Chain) (sg acct m : Nat) (slot : EscrowSlot) (dest : TokenAcct)
    (hrec : alookup st.escrows (escrowKey slot.record.buyer slot.record.seller) = some slot)
    (hvm : slot.vaultMint = m)
    (hdest : alookup st.tokenAccts acct = some dest)
    (hdm : dest.mint = m)
    (hda : dest.authority = sg)
    (hopen : slot.record.is_completed = false)
    (hlow : slot.vaultBalance < slot.record.amount) :
    complete_escrow st (escrowKey slot.record.buyer slot.record.seller) sg acct m
        = .error .InsufficientFunds ∧
    applyOp st (Op.complete (escrowKey slot.record.buyer slot.record.seller) sg acct m) = st ∧
    (sg = slot.record.buyer →
      cancel_escrow st (escrowKey slot.record.buyer slot.record.seller) sg acct m
          = .error .InsufficientFunds ∧
      applyOp st (Op.cancel (escrowKey slot.record.buyer slot.record.seller) sg acct m) = st) := by
  have hc := complete_escrow_insufficient hrec hvm hdest hdm hda hopen hlow
  refine ⟨hc, applyOp_complete_error hc, fun heq => ?_⟩
  subst heq
  have hx := cancel_escrow_insufficient hrec hvm hdest hdm hda hopen hlow
  exact ⟨hx, applyOp_cancel_error hx⟩

/-- Witness for C4 on `lowVaultChain`, whose vault (40) holds less than the
record's amount (100); signer 1 is the buyer, so both branches apply. -/
theorem C4_witness :
    complete_escrow lowVaultChain (1, 2) 1 10 5 = .error .InsufficientFunds ∧
    applyOp lowVaultChain (Op.complete (1, 2) 1 10 5) = lowVaultChain ∧
    (cancel_escrow lowVaultChain (1, 2) 1 10 5 = .error .InsufficientFunds ∧
     applyOp lowVaultChain (Op.cancel (1, 2) 1 10 5) = lowVaultChain) := by
  have h := C4_failed_transfer_preserves_state lowVaultChain 1 10 5
    ⟨⟨1, 2, 100, "Widget", false, 255⟩, 5, 40⟩ ⟨5, 1, 0⟩
    (by decide) rfl (by decide) rfl rfl rfl (by decide)
  exact ⟨h.1, h.2.1, h.2.2 rfl⟩

/-- C5 counterexample: `create_escrow` performs no `amount > 0` check. On the
`genesis` ledger a creation with `amount = 0` succeeds and stores a record
with `amount = 0`, contradicting the claim that such a call fails without
creating a record. -/
theorem C5_counterexample :
    (create_escrow genesis 1 2 10 5 255 0 "Widget").toOption = some zeroAmountChain ∧
    ((alookup zeroAmountChain.escrows (escrowKey 1 2)).map fun sl => sl.record.amount)
        = some 0 := by
  decide

/-- C5 (amended): the `item_name` length bound is enforced — through the
fixed `Escrow::SPACE` allocation, a call whose `item_name` exceeds 50 UTF-8
bytes cannot succeed, and the failing call creates no record and moves no
funds. The claimed `amount > 0` precondition does not exist in the code: a
zero-amount creation succeeds. -/
theorem C5_item_name_bound (st : Chain) (b s acct m bp amt : Nat) (n : String)
    (hlong : 50 < n.utf8ByteSize) :
    (∀ st1, create_escrow st b s acct m bp amt n ≠ .ok st1) ∧
    applyOp st (Op.create b s acct m bp amt n) = st := by
  have hfail : ∀ st1, create_escrow st b s acct m bp amt n ≠ .ok st1 := by
    intro st1 h
    obtain ⟨src, -, -, -, -, -, hsz, -⟩ := create_escrow_ok_inv h
    simp [serializedSize, Escrow.SPACE] at hsz
    omega
  refine ⟨hfail, ?_⟩
  cases hc : create_escrow st b s acct m bp amt n with
  | ok st1 => exact absurd hc (hfail st1)
  | error e => exact applyOp_create_error hc

/-- Witness for the amended C5 with a 51-byte `item_name`. -/
theorem C5_witness :
    (∀ st1, create_escrow genesis 1 2 10 5 255 100 longName ≠ .ok st1) ∧
    applyOp genesis (Op.create 1 2 10 5 255 100 longName) = genesis :=
  C5_item_name_bound genesis 1 2 10 5 255 100 longName (by decide)

/-- C6: every successful `complete_escrow` moves exactly `record.amount`
(the amount fixed at creation) out of the vault into the signer-owned
destination token account and then sets `is_completed` to `true`; every
successful `cancel_escrow` does the same with the buyer (the signer must be
`record.buyer`) as the destination. -/
theorem C6_settlement_moves_exact_amount :
    (∀ st key sg acct m st1, complete_escrow st key sg acct m = .ok st1 →
      ∃ slot dest, alookup st.escrows key = some slot ∧
        alookup st.tokenAccts acct = some dest ∧
        dest.authority = sg ∧
        slot.record.is_completed = false ∧
        slot.record.amount ≤ slot.vaultBalance ∧
        alookup st1.escrows key = some
          { slot with record := { slot.record with is_completed := true },
                      vaultBalance := slot.vaultBalance - slot.record.amount } ∧
        alookup st1.tokenAccts acct = some
          { dest with balance := dest.balance + slot.record.amount }) ∧
    (∀ st key sg acct m st1, cancel_escrow st key sg acct m = .ok st1 →
      ∃ slot dest, alookup st.escrows key = some slot ∧
        alookup st.tokenAccts acct = some dest ∧
        sg = slot.record.buyer ∧
        dest.authority = sg ∧
        slot.record.is_completed = false ∧
        slot.record.amount ≤ slot.vaultBalance ∧
        alookup st1.escrows key = some
          { slot with record := { slot.record with is_completed := true },
                      vaultBalance := slot.vaultBalance - slot.record.amount } ∧
        alookup st1.tokenAccts acct = some
          { dest with balance := dest.balance + slot.record.amount }) := by
  constructor
  · intro st key sg acct m st1 h
    obtain ⟨slot, dest, hrec, -, -, hdest, -, hda, hdone, hbal, hst1⟩ :=
      complete_escrow_ok_inv h
    subst hst1
    exact ⟨slot, dest, hrec, hdest, hda, hdone, hbal,
      alookup_aset_self _ _ _, alookup_aset_self _ _ _⟩
  · intro st key sg acct m st1 h
    obtain ⟨slot, dest, hrec, -, -, hdest, -, hda, hdone, hauth, hbal, hst1⟩ :=
      cancel_escrow_ok_inv h
    subst hst1
    exact ⟨slot, dest, hrec, hdest, hauth, hda, hdone, hbal,
      alookup_aset_self _ _ _, alookup_aset_self _ _ _⟩

/-- Witness for C6: the seller completing `demoCreated`, and the buyer
cancelling `demoCreated`. -/
theorem C6_witness :
    (∃ slot dest, alookup demoCreated.escrows (1, 2) = some slot ∧
        alookup demoCreated.tokenAccts 20 = some dest ∧
        dest.authority = 2 ∧
        slot.record.is_completed = false ∧
        slot.record.amount ≤ slot.vaultBalance ∧
        alookup settledChain.escrows (1, 2) = some
          { slot with record := { slot.record with is_completed := true },
                      vaultBalance := slot.vaultBalance - slot.record.amount } ∧
        alookup settledChain.tokenAccts 20 = some
          { dest with balance := dest.balance + slot.record.amount }) ∧
    (∃ slot dest, alookup demoCreated.escrows (1, 2) = some slot ∧
        alookup demoCreated.tokenAccts 10 = some dest ∧
        (1 : Nat) = slot.record.buyer ∧
        dest.authority = 1 ∧
        slot.record.is_completed = false ∧
        slot.record.amount ≤ slot.vaultBalance ∧
        alookup cancelledChain.escrows (1, 2) = some
          { slot with record := { slot.record with is_completed := true },
                      vaultBalance := slot.vaultBalance - slot.record.amount } ∧
        alookup cancelledChain.tokenAccts 10 = some
          { dest with balance := dest.balance + slot.record.amount }) :=
  ⟨C6_settlement_moves_exact_amount.1 demoCreated (1, 2) 2 20 5 settledChain rfl,
   C6_settlement_moves_exact_amount.2 demoCreated (1, 2) 1 10 5 cancelledChain rfl⟩

/-- C7: `is_completed` is monotonic over every sequence of operations: a
successful `create_escrow` initializes it to `false`, and once a record's
flag is `true` it stays `true` after any further sequence of create,
complete or cancel transactions. -/
theorem C7_is_completed_monotone :
    (∀ st b s acct m bp amt n st1, create_escrow st b s acct m bp amt n = .ok st1 →
      ((alookup st1.escrows (escrowKey b s)).map fun sl => sl.record.is_completed)
        = some false) ∧
    (∀ st ops k, completedAt st k → completedAt (applyOps st ops) k) := by
  constructor
  · intro st b s acct m bp amt n st1 h
    obtain ⟨src, -, -, -, -, -, -, hst1⟩ := create_escrow_ok_inv h
    subst hst1
    rw [alookup_aset_self]
    rfl
  · exact fun st ops k h => applyOps_completed_mono st ops k h

/-- Witness for C7: the record of `demoCreated` starts out with the flag
`false`, and the settled flag of `settledChain` survives a further cancel
and complete attempt. -/
theorem C7_witness :
    ((alookup demoCreated.escrows (escrowKey 1 2)).map fun sl => sl.record.is_completed)
        = some false ∧
    completedAt (applyOps settledChain
        [Op.cancel (1, 2) 1 10 5, Op.complete (1, 2) 2 20 5]) (1, 2) :=
  ⟨C7_is_completed_monotone.1 genesis 1 2 10 5 255 100 "Widget" demoCreated rfl,
   C7_is_completed_monotone.2 settledChain
     [Op.cancel (1, 2) 1 10 5, Op.complete (1, 2) 2 20 5] (1, 2)
     (by unfold completedAt; decide)⟩

/-- C8: neither `complete_escrow` nor `cancel_escrow` — succeeding or
failing — changes any record's `buyer`, `seller`, `amount` or `item_name`:
at every key, those four fields read the same after the transaction as
before it; at most `is_completed` (and the vault balance) changes. -/
theorem C8_settlement_preserves_creation_fields
    (st : Chain) (key k1 : Nat × Nat) (sg acct m : Nat) :
    ((alookup (applyOp st (Op.complete key sg acct m)).escrows k1).map
        fun sl => frozenFields sl.record)
      = ((alookup st.escrows k1).map fun sl => frozenFields sl.record) ∧
    ((alookup (applyOp st (Op.cancel key sg acct m)).escrows k1).map
        fun sl => frozenFields sl.record)
      = ((alookup st.escrows k1).map fun sl => frozenFields sl.record) := by
  constructor
  · cases hc : complete_escrow st key sg acct m with
    | error e => rw [applyOp_complete_error hc]
    | ok st1 =>
        obtain ⟨slot, dest, hrec, -, -, -, -, -, -, -, hst1⟩ := complete_escrow_ok_inv hc
        have happ : applyOp st (Op.complete key sg acct m) = st1 := by
          simp [applyOp, hc]
        rw [happ, hst1]
        dsimp only
        by_cases hk : key = k1
        · subst hk
          rw [alookup_aset_self, hrec]
          rfl
        · rw [alookup_aset_ne _ _ _ _ hk]
  · cases hc : cancel_escrow st key sg acct m with
    | error e => rw [applyOp_cancel_error hc]
    | ok st1 =>
        obtain ⟨slot, dest, hrec, -, -, -, -, -, -, -, -, hst1⟩ := cancel_escrow_ok_inv hc
        have happ : applyOp st (Op.cancel key sg acct m) = st1 := by
          simp [applyOp, hc]
        rw [happ, hst1]
        dsimp only
        by_cases hk : key = k1
        · subst hk
          rw [alookup_aset_self, hrec]
          rfl
        · rw [alookup_aset_ne _ _ _ _ hk]

/-- C9: the record key is the deterministic derivation `escrowKey` of the
(buyer, seller) pair, so at most one record exists per pair: a create on a
pair whose record exists fails with `AlreadyExists` leaving the ledger
unchanged, and in particular a second create straight after a successful
one fails with `AlreadyExists`. -/
theorem C9_one_escrow_per_pair :
    (∀ st b s acct m bp amt n slot, alookup st.escrows (escrowKey b s) = some slot →
      create_escrow st b s acct m bp amt n = .error .AlreadyExists ∧
      applyOp st (Op.create b s acct m bp amt n) = st) ∧
    (∀ st b s acct m bp amt n st1 acct2 m2 bp2 amt2 n2,
      create_escrow st b s acct m bp amt n = .ok st1 →
      create_escrow st1 b s acct2 m2 bp2 amt2 n2 = .error .AlreadyExists) := by
  constructor
  · intro st b s acct m bp amt n slot hrec
    have hc : create_escrow st b s acct m bp amt n = .error .AlreadyExists :=
      create_escrow_exists hrec
    exact ⟨hc, applyOp_create_error hc⟩
  · intro st b s acct m bp amt n st1 acct2 m2 bp2 amt2 n2 h
    obtain ⟨src, -, -, -, -, -, -, hst1⟩ := create_escrow_ok_inv h
    subst hst1
    exact create_escrow_exists (alookup_aset_self _ _ _)

/-- Witness for C9: a repeat create for the pair (1, 2) on `demoCreated`,
and the same fact derived from the successful genesis create. -/
theorem C9_witness :
    (create_escrow demoCreated 1 2 10 5 255 50 "Item" = .error .AlreadyExists ∧
     applyOp demoCreated (Op.create 1 2 10 5 255 50 "Item") = demoCreated) ∧
    create_escrow demoCreated 1 2 20 5 255 7 "Other" = .error .AlreadyExists :=
  ⟨C9_one_escrow_per_pair.1 demoCreated 1 2 10 5 255 50 "Item"
      ⟨⟨1, 2, 100, "Widget", false, 255⟩, 5, 100⟩ (by decide),
   C9_one_escrow_per_pair.2 genesis 1 2 10 5 255 100 "Widget" demoCreated
      20 5 255 7 "Other" rfl⟩

/-- C10: in `cancel_escrow` the settlement check precedes the authorization
check — on a record with `is_completed = true`, a cancel attempt by a signer
who is not `record.buyer` fails with `AlreadyCompleted`, not with
`UnauthorizedCancel`. -/
theorem C10_settled_check_precedes_auth
    (st : Chain) (sg acct m : Nat) (slot : EscrowSlot) (dest : TokenAcct)
    (hrec : alookup st.escrows (escrowKey slot.record.buyer slot.record.seller) = some slot)
    (hvm : slot.vaultMint = m)
    (hdest : alookup st.tokenAccts acct = some dest)
    (hdm : dest.mint = m)
    (hda : dest.authority = sg)
    (hdone : slot.record.is_completed = true)
    (_hne : sg ≠ slot.record.buyer) :
    cancel_escrow st (escrowKey slot.record.buyer slot.record.seller) sg acct m
        = .error .AlreadyCompleted ∧
    cancel_escrow st (escrowKey slot.record.buyer slot.record.seller) sg acct m
        ≠ .error .UnauthorizedCancel := by
  have hx := cancel_escrow_already hrec hvm hdest hdm hda hdone
  refine ⟨hx, ?_⟩
  rw [hx]
  simp

/-- Witness for C10 on `settledChain`: party 3 (neither buyer nor seller)
attempts the cancel. -/
theorem C10_witness :
    cancel_escrow settledChain (1, 2) 3 77 5 = .error .AlreadyCompleted ∧
    cancel_escrow settledChain (1, 2) 3 77 5 ≠ .error .UnauthorizedCancel :=
  C10_settled_check_precedes_auth settledChain 3 77 5
    ⟨⟨1, 2, 100, "Widget", true, 255⟩, 5, 0⟩ ⟨5, 3, 0⟩
    (by decide) rfl (by decide) rfl rfl rfl (by decide)

end TokenEscrow
